import Mathlib

/-!
Verification of the INARA activities service (`src/inara_app.py`).

The file is a shallow embedding of the service: the triangle demo, the
Activity data model, the in-memory store (a list of records plus a
monotonically increasing id counter), the create and list operations, and
the request dispatcher that maps handler failures to client errors.
Timestamps are modelled as natural numbers; each request that reads the
clock receives the captured time as an explicit argument.
-/

namespace Inara

/-- Python's `str.strip()` with no argument: remove leading and trailing
whitespace characters. -/
def pyStrip (s : String) : String :=
  String.mk
    ((s.data.dropWhile Char.isWhitespace).reverse.dropWhile Char.isWhitespace).reverse

/-- Request body of the legacy triangle endpoint (`TriangleInput`). -/
structure TriangleInput where
  message : String
  height : Int
deriving DecidableEq, Repr

/-- Embedding of `build_triangle`: rejects a whitespace-only message and a
negative height, otherwise produces the message followed by `height` lines,
line `i` (0-indexed) holding `height - i - 1` spaces and a slash, joined by
newlines.  `Except.error` models the raised `ValueError`. -/
def build_triangle (message : String) (height : Int) : Except String String :=
  if (pyStrip message).data.isEmpty then
    Except.error "message must be non-empty"
  else if height < 0 then
    Except.error "height must be >= 0"
  else
    let lines := [message] ++ (List.range height.toNat).map
      (fun i => String.mk (List.replicate (height.toNat - i - 1) ' ') ++ "/")
    Except.ok (String.intercalate "\n" lines)

/-- The list of lines `build_triangle` joins for a valid input of
non-negative height `h`. -/
def triangleLines (message : String) (h : Nat) : List String :=
  [message] ++ (List.range h).map
    (fun i => String.mk (List.replicate (h - i - 1) ' ') ++ "/")

/-- Fields of `ActivityCreate`: everything the caller supplies to the create
endpoint (the base fields plus `weekly_plan_id`). -/
structure ActivityCreate where
  title : String
  description : Option String
  assignee_id : Int
  support_assignee_id : Option Int
  program_id : Option Int
  project_id : Option Int
  main_donor_id : Option Int
  start_datetime : Nat
  end_datetime : Nat
  priority : String
  status : String
  notes : Option String
  office_id : Option Int
  department : Option String
  weekly_plan_id : Option Int
deriving DecidableEq, Repr

/-- Fields of `ActivityRead`: the stored record, adding the server-assigned
`id`, `is_late`, `created_at` and `updated_at`. -/
structure ActivityRead where
  title : String
  description : Option String
  assignee_id : Int
  support_assignee_id : Option Int
  program_id : Option Int
  project_id : Option Int
  main_donor_id : Option Int
  start_datetime : Nat
  end_datetime : Nat
  priority : String
  status : String
  notes : Option String
  office_id : Option Int
  department : Option String
  weekly_plan_id : Option Int
  id : Nat
  is_late : Bool
  created_at : Nat
  updated_at : Nat
deriving DecidableEq, Repr

/-- The mutable module state: `_fake_activities_db` and
`_activity_id_counter`. -/
structure AppState where
  db : List ActivityRead
  counter : Nat
deriving DecidableEq, Repr

/-- The state at process start: empty store, counter at 1. -/
def initialState : AppState := { db := [], counter := 1 }

/-- Embedding of `create_activity`: capture `now`, set `is_late := false`,
build the record with the current counter as `id` and
`created_at = updated_at = now`, append it to the store, increment the
counter, and return the record. -/
def create_activity (body : ActivityCreate) (now : Nat) (s : AppState) :
    ActivityRead × AppState :=
  let is_late := false
  let activity : ActivityRead :=
    { id := s.counter
      weekly_plan_id := body.weekly_plan_id
      title := body.title
      description := body.description
      assignee_id := body.assignee_id
      support_assignee_id := body.support_assignee_id
      program_id := body.program_id
      project_id := body.project_id
      main_donor_id := body.main_donor_id
      start_datetime := body.start_datetime
      end_datetime := body.end_datetime
      priority := body.priority
      status := body.status
      notes := body.notes
      office_id := body.office_id
      department := body.department
      is_late := is_late
      created_at := now
      updated_at := now }
  (activity, { db := s.db ++ [activity], counter := s.counter + 1 })

/-- Embedding of `list_activities`: start from the whole store and apply
each of the four optional exact-match filters in turn; a filter whose value
is `none` (Python `None`) leaves the running list unchanged. -/
def list_activities (office_id assignee_id : Option Int)
    (status department : Option String) (s : AppState) : List ActivityRead :=
  let results := s.db
  let results := match office_id with
    | none => results
    | some v => results.filter (fun a => a.office_id == some v)
  let results := match assignee_id with
    | none => results
    | some v => results.filter (fun a => a.assignee_id == v)
  let results := match status with
    | none => results
    | some v => results.filter (fun a => a.status == v)
  let results := match department with
    | none => results
    | some v => results.filter (fun a => a.department == some v)
  results

/-- One HTTP request to the service.  `createReq` carries the time the
handler would read from the clock.  `malformedReq` — Modelled from the spec:
the transport layer (FastAPI request parsing, not in `src/`) rejects a
malformed or ill-typed body with a client error before any handler runs. -/
inductive Request where
  | healthReq : Request
  | triangleReq (body : TriangleInput) : Request
  | createReq (body : ActivityCreate) (now : Nat) : Request
  | listReq (office_id assignee_id : Option Int)
      (status department : Option String) : Request
  | malformedReq (detail : String) : Request
deriving DecidableEq, Repr

/-- The response a request produces. -/
inductive Response where
  | healthOk : Response
  | triangleOk (triangle : String) : Response
  | activityOk (activity : ActivityRead) : Response
  | activitiesOk (activities : List ActivityRead) : Response
  | clientError (status : Nat) (detail : String) : Response
deriving DecidableEq, Repr

/-- Whether a response is a client (4xx) error. -/
def Response.isClientError : Response → Bool
  | Response.clientError _ _ => true
  | _ => false

/-- Embedding of the `triangle` endpoint: call `build_triangle` and map a
raised `ValueError` to `HTTPException(status_code=400, detail=str(e))`. -/
def triangle (body : TriangleInput) : Response :=
  match build_triangle body.message body.height with
  | Except.ok r => Response.triangleOk r
  | Except.error e => Response.clientError 400 e

/-- The service as a state transformer: dispatch one request against the
current store state.  Only `createReq` touches the state; the modelled
validation failure (`malformedReq`) is rejected with HTTP 422 before any
handler runs. -/
def handleRequest : Request → AppState → Response × AppState
  | Request.healthReq, s => (Response.healthOk, s)
  | Request.triangleReq body, s => (triangle body, s)
  | Request.createReq body now, s =>
      let r := create_activity body now s
      (Response.activityOk r.1, r.2)
  | Request.listReq o a st d, s =>
      (Response.activitiesOk (list_activities o a st d s), s)
  | Request.malformedReq detail, s => (Response.clientError 422 detail, s)

/-- Run a list of create calls in order from a state, returning the list of
returned records and the final state. -/
def runCreates : List (ActivityCreate × Nat) → AppState →
    List ActivityRead × AppState
  | [], s => ([], s)
  | (b, t) :: rest, s =>
      let r := create_activity b t s
      let rs := runCreates rest r.2
      (r.1 :: rs.1, rs.2)

/-- A concrete create body used by the witnesses. -/
def sampleCreate : ActivityCreate :=
  { title := "Field visit"
    description := none
    assignee_id := 7
    support_assignee_id := none
    program_id := none
    project_id := none
    main_donor_id := none
    start_datetime := 100
    end_datetime := 200
    priority := "medium"
    status := "planned"
    notes := none
    office_id := some 1
    department := none
    weekly_plan_id := none }

/-- A concrete stored record with `office_id` and `department` both `None`,
used by the filter witness. -/
def sampleNoOffice : ActivityRead :=
  { title := "t"
    description := none
    assignee_id := 7
    support_assignee_id := none
    program_id := none
    project_id := none
    main_donor_id := none
    start_datetime := 0
    end_datetime := 0
    priority := "medium"
    status := "planned"
    notes := none
    office_id := none
    department := none
    weekly_plan_id := none
    id := 1
    is_late := false
    created_at := 0
    updated_at := 0 }


theorem runCreates_spec (inps : List (ActivityCreate × Nat)) (s : AppState) :
    (runCreates inps s).1.map (fun a => a.id) = List.range' s.counter inps.length
    ∧ (runCreates inps s).2.db = s.db ++ (runCreates inps s).1
    ∧ (runCreates inps s).2.counter = s.counter + inps.length := by
  induction inps generalizing s with
  | nil => simp [runCreates]
  | cons p rest ih =>
      obtain ⟨b, t⟩ := p
      obtain ⟨h1, h2, h3⟩ := ih (create_activity b t s).2
      refine ⟨?_, ?_, ?_⟩
      · simp only [runCreates, List.map_cons, h1, List.length_cons]
        rw [List.range'_succ]
        rfl
      · simp only [runCreates, h2]
        show _ = s.db ++ ((create_activity b t s).1 :: (runCreates rest (create_activity b t s).2).1)
        simp [create_activity, List.append_assoc]
      · simp only [runCreates, h3, List.length_cons]
        show s.counter + 1 + rest.length = _
        omega

theorem mem_list_activities (oid aid : Option Int) (stf dep : Option String)
    (s : AppState) (x : ActivityRead) :
    x ∈ list_activities oid aid stf dep s
      ↔ x ∈ s.db
        ∧ (∀ v, oid = some v → x.office_id = some v)
        ∧ (∀ v, aid = some v → x.assignee_id = v)
        ∧ (∀ v, stf = some v → x.status = v)
        ∧ (∀ v, dep = some v → x.department = some v) := by
  cases oid <;> cases aid <;> cases stf <;> cases dep <;>
    simp [list_activities, List.mem_filter] <;> tauto

theorem runCreates_results_forall (P : ActivityRead → Prop)
    (hP : ∀ b now s, P (create_activity b now s).1) :
    ∀ (inps : List (ActivityCreate × Nat)) (s : AppState) (a : ActivityRead),
      a ∈ (runCreates inps s).1 → P a := by
  intro inps
  induction inps with
  | nil => intro s a ha; simp [runCreates] at ha
  | cons p rest ih =>
      obtain ⟨b, t⟩ := p
      intro s a ha
      simp only [runCreates, List.mem_cons] at ha
      rcases ha with rfl | ha
      · exact hP b t s
      · exact ih _ a ha

/-- C1: starting from the empty store, the ids of the records returned by a
sequence of creates are exactly `1, 2, ..., n` in order (so the i-th create,
1-indexed, returns id `i`); the ids are strictly increasing (hence unique) in
creation order, and any two records of the run (in particular two produced by
identical inputs) are distinct. -/
theorem create_ids_sequential (inps : List (ActivityCreate × Nat)) :
    (runCreates inps initialState).1.map (fun a => a.id)
        = List.range' 1 inps.length
    ∧ List.Pairwise (fun a b => a.id < b.id) (runCreates inps initialState).1
    ∧ List.Pairwise (fun a b => a ≠ b) (runCreates inps initialState).1 := by
  have h1 : (runCreates inps initialState).1.map (fun a => a.id)
      = List.range' 1 inps.length := (runCreates_spec inps initialState).1
  have hlt : List.Pairwise (fun a b : ActivityRead => a.id < b.id)
      (runCreates inps initialState).1 := by
    have h2 := List.pairwise_lt_range' 1 inps.length
    rw [← h1] at h2
    exact List.pairwise_map.mp h2
  exact ⟨h1, hlt, hlt.imp fun hab heq => by subst heq; exact lt_irrefl _ hab⟩

/-- C2: with no filter supplied the list operation returns the whole store
in order; with only `assignee_id = x` supplied it returns exactly the
subsequence (order-preserving filter) whose `assignee_id` equals `x`. -/
theorem list_no_filter_and_assignee (s : AppState) (x : Int) :
    list_activities none none none none s = s.db
    ∧ list_activities none (some x) none none s
        = s.db.filter (fun a => a.assignee_id == x) :=
  ⟨rfl, rfl⟩

/-- C3: supplying two filters (office and status) yields exactly the records
lying in both single-filter results, and in general a record is listed iff
it is in the store and matches every supplied filter, an unsupplied filter
imposing no constraint. -/
theorem list_filters_intersect (s : AppState) (o : Int) (st : String)
    (oid aid : Option Int) (stf dep : Option String) (x : ActivityRead) :
    (x ∈ list_activities (some o) none (some st) none s
      ↔ x ∈ list_activities (some o) none none none s
        ∧ x ∈ list_activities none none (some st) none s)
    ∧ (x ∈ list_activities oid aid stf dep s
      ↔ x ∈ s.db
        ∧ (∀ v, oid = some v → x.office_id = some v)
        ∧ (∀ v, aid = some v → x.assignee_id = v)
        ∧ (∀ v, stf = some v → x.status = v)
        ∧ (∀ v, dep = some v → x.department = some v)) := by
  constructor
  · simp only [mem_list_activities]
    tauto
  · exact mem_list_activities oid aid stf dep s x

/-- C4: for a message that is not whitespace-only and a non-negative height,
the triangle output is the newline-join of `height + 1` lines, the first of
which is the message, and the k-th slash line (1-indexed, at list index k)
holds `height - k` leading spaces followed by one slash; `height = 0` leaves
just the message line. -/
theorem triangle_shape (message : String) (height : Int)
    (hm : (pyStrip message).data.isEmpty = false) (hh : 0 ≤ height) :
    build_triangle message height
      = Except.ok (String.intercalate "\n" (triangleLines message height.toNat))
    ∧ (triangleLines message height.toNat).length = height.toNat + 1
    ∧ (triangleLines message height.toNat).head? = some message
    ∧ ∀ k : Nat, 1 ≤ k → k ≤ height.toNat →
        (triangleLines message height.toNat)[k]? =
          some (String.mk (List.replicate (height.toNat - k) ' ') ++ "/") := by
  refine ⟨?_, ?_, ?_, ?_⟩
  · simp [build_triangle, triangleLines, hm, not_lt.mpr hh]
  · simp only [triangleLines, List.length_append, List.length_map,
      List.length_range, List.length_cons, List.length_nil]
    omega
  · simp [triangleLines]
  · intro k h1 h2
    obtain ⟨j, rfl⟩ : ∃ j, k = j + 1 := ⟨k - 1, by omega⟩
    have hj : j < height.toNat := by omega
    simp [triangleLines, List.getElem?_cons_succ, List.getElem?_map,
      List.getElem?_range hj, Nat.sub_sub]

/-- C5: the triangle endpoint answers a client error with status 400 exactly
when the message is empty or whitespace-only or the height is negative, the
detail being the text of the raised failure; on all other inputs it
succeeds. -/
theorem triangle_endpoint_errors (body : TriangleInput) :
    ((∃ d, triangle body = Response.clientError 400 d)
        ↔ ((pyStrip body.message).data.isEmpty = true ∨ body.height < 0))
    ∧ ((pyStrip body.message).data.isEmpty = true →
        triangle body = Response.clientError 400 "message must be non-empty")
    ∧ ((pyStrip body.message).data.isEmpty = false → body.height < 0 →
        triangle body = Response.clientError 400 "height must be >= 0")
    ∧ ((pyStrip body.message).data.isEmpty = false → 0 ≤ body.height →
        ∃ t, triangle body = Response.triangleOk t) := by
  by_cases hm : (pyStrip body.message).data.isEmpty = true
  · refine ⟨?_, ?_, ?_, ?_⟩ <;> simp [triangle, build_triangle, hm]
  · have hm2 : (pyStrip body.message).data.isEmpty = false := by
      simpa using hm
    by_cases hh : body.height < 0
    · refine ⟨?_, ?_, ?_, ?_⟩ <;>
        simp [triangle, build_triangle, hm2, hh]
    · have hh2 : ¬ body.height < 0 := hh
      refine ⟨?_, ?_, ?_, ?_⟩ <;>
        simp [triangle, build_triangle, hm2, hh2]

/-- C6: a freshly created Activity has `created_at` and `updated_at` both
equal to the time captured at the start of the create, and every record in
any store reachable by a sequence of creates from the initial state keeps
`created_at = updated_at` (no operation ever rewrites a stored record). -/
theorem created_at_eq_updated_at (body : ActivityCreate) (now : Nat)
    (s : AppState) (inps : List (ActivityCreate × Nat)) :
    (create_activity body now s).1.created_at = now
    ∧ (create_activity body now s).1.updated_at = now
    ∧ ∀ a, a ∈ (runCreates inps initialState).2.db →
        a.created_at = a.updated_at := by
  refine ⟨rfl, rfl, ?_⟩
  intro a ha
  have hdb : (runCreates inps initialState).2.db
      = initialState.db ++ (runCreates inps initialState).1 :=
    (runCreates_spec inps initialState).2.1
  rw [hdb] at ha
  simp only [initialState, List.nil_append] at ha
  exact runCreates_results_forall (fun a => a.created_at = a.updated_at)
    (fun _ _ _ => rfl) inps initialState a ha

/-- C7: a request answered with a client error (a triangle validation
failure, or a malformed body rejected by the transport layer) leaves the
store and the id counter exactly as they were. -/
theorem failed_request_no_side_effect (r : Request) (s : AppState)
    (h : (handleRequest r s).1.isClientError = true) :
    (handleRequest r s).2 = s := by
  cases r <;> simp_all [handleRequest, Response.isClientError]

/-- C8: a successful create appends exactly one record, its own result, at
the end of the store, leaving every previously stored record in place, and
increments the counter by one; a list request leaves the state (store and
counter) unchanged. -/
theorem create_appends_one (body : ActivityCreate) (now : Nat) (s : AppState)
    (o aid : Option Int) (st dep : Option String) :
    (create_activity body now s).2.db = s.db ++ [(create_activity body now s).1]
    ∧ (create_activity body now s).2.counter = s.counter + 1
    ∧ (handleRequest (Request.listReq o aid st dep) s).2 = s :=
  ⟨rfl, rfl, rfl⟩

/-- C9: every create returns (and stores) a record with `is_late = false`,
whatever the input and capture time, and consequently no record of a store
reachable by creates from the initial state has `is_late = true`. -/
theorem is_late_always_false (body : ActivityCreate) (now : Nat)
    (s : AppState) (inps : List (ActivityCreate × Nat)) :
    (create_activity body now s).1.is_late = false
    ∧ ∀ a, a ∈ (runCreates inps initialState).2.db → a.is_late = false := by
  refine ⟨rfl, ?_⟩
  intro a ha
  have hdb : (runCreates inps initialState).2.db
      = initialState.db ++ (runCreates inps initialState).1 :=
    (runCreates_spec inps initialState).2.1
  rw [hdb] at ha
  simp only [initialState, List.nil_append] at ha
  exact runCreates_results_forall (fun a => a.is_late = false)
    (fun _ _ _ => rfl) inps initialState a ha

/-- C10: a record whose `office_id` is `None` is never returned once an
`office_id` filter value is supplied, whatever the other filters, because
the supplied integer never equals `None`; likewise a record whose
`department` is `None` never matches a supplied department filter. -/
theorem none_field_never_matches (s : AppState) (x : Int) (d : String)
    (oid aid : Option Int) (st dep : Option String) (a : ActivityRead) :
    (a.office_id = none → a ∉ list_activities (some x) aid st dep s)
    ∧ (a.department = none → a ∉ list_activities oid aid st (some d) s) := by
  constructor
  · intro hnone hmem
    have h := ((mem_list_activities (some x) aid st dep s a).mp hmem).2.1 x rfl
    rw [hnone] at h
    exact Option.noConfusion h
  · intro hnone hmem
    have h :=
      ((mem_list_activities oid aid st (some d) s a).mp hmem).2.2.2.2 d rfl
    rw [hnone] at h
    exact Option.noConfusion h

theorem triangle_shape_witness :
    build_triangle "hello world" 4
      = Except.ok "hello world\n   /\n  /\n /\n/" := by
  rw [(triangle_shape "hello world" 4 (by decide) (by decide)).1]
  rfl

theorem triangle_endpoint_errors_witness :
    triangle { message := "   ", height := 3 }
      = Response.clientError 400 "message must be non-empty" :=
  (triangle_endpoint_errors { message := "   ", height := 3 }).2.1 (by decide)

theorem created_at_eq_updated_at_witness :
    (create_activity sampleCreate 5 initialState).1.created_at
      = (create_activity sampleCreate 5 initialState).1.updated_at :=
  (created_at_eq_updated_at sampleCreate 5 initialState
      [(sampleCreate, 5)]).2.2
    (create_activity sampleCreate 5 initialState).1 (by decide)

theorem failed_request_no_side_effect_witness :
    (handleRequest (Request.triangleReq { message := "", height := 4 })
        initialState).2 = initialState :=
  failed_request_no_side_effect
    (Request.triangleReq { message := "", height := 4 }) initialState
    (by decide)

theorem is_late_always_false_witness :
    (create_activity sampleCreate 5 initialState).1.is_late = false :=
  (is_late_always_false sampleCreate 5 initialState [(sampleCreate, 5)]).2
    (create_activity sampleCreate 5 initialState).1 (by decide)

theorem none_field_never_matches_witness :
    sampleNoOffice ∉ list_activities (some 1) none none none
      { db := [sampleNoOffice], counter := 2 } :=
  (none_field_never_matches { db := [sampleNoOffice], counter := 2 } 1 "MEAL"
      none none none none sampleNoOffice).1 rfl

end Inara
